import Mathlib

/-!
# SwapWright — verification of the swap quote / security / risk core

Shallow embedding of the SwapWright source (TypeScript) in Lean 4.

Conventions of the embedding:
* JavaScript `number` values are modelled as exact rationals (`ℚ`).  All the
  arithmetic the verified claims depend on (threshold comparisons, clamping,
  `Math.floor`, `Math.max`/`Math.min`) is exact on the rationals the program
  actually manipulates; IEEE-754 rounding of intermediate products is not
  modelled, so equalities that depend on a slippage value being *exactly*
  `bps/10000` are stated under that hypothesis.
* JavaScript `bigint` values coming from the on-chain quoter are `uint256`
  amounts, hence non-negative; they are modelled as `ℕ`.  `bigint` division
  truncates toward zero, which on non-negative operands is `Nat` division.
* Fallible code is modelled with `Except`/`Option`; a thrown `Error` carries
  its message string.
* `Date.now()` timestamps are `ℕ` (milliseconds).
-/

namespace SwapWright

/-! ## `src/lib/security.ts` — rate limiting

`checkRateLimit` keeps a per-identity record `{count, resetAt}`.  The store is
modelled per identity: the map lookup for one identifier is an
`Option RateLimitRecord`, and the function returns the result together with
the record written back for that identifier.  The probabilistic (≈10 %/call)
lazy eviction in the source only ever deletes records with `resetAt < now`;
for the identity being checked such a record is replaced by a fresh window by
the very next line, so eviction does not change any result
(`checkRateLimit_evict_irrelevant` below). -/

structure RateLimitRecord where
  count : ℕ
  resetAt : ℕ
  deriving Repr, DecidableEq

structure RateLimitResult where
  allowed : Bool
  remaining : ℤ
  resetAt : ℕ
  deriving Repr, DecidableEq

/-- `checkRateLimit(identifier, maxRequests, windowMs)` from
`src/lib/security.ts`, as a transition on the identity's record. -/
def checkRateLimit (record : Option RateLimitRecord) (now maxRequests windowMs : ℕ) :
    RateLimitResult × Option RateLimitRecord :=
  match record with
  | none =>
      (⟨true, (maxRequests : ℤ) - 1, now + windowMs⟩,
       some ⟨1, now + windowMs⟩)
  | some r =>
      if r.resetAt < now then
        (⟨true, (maxRequests : ℤ) - 1, now + windowMs⟩,
         some ⟨1, now + windowMs⟩)
      else if maxRequests ≤ r.count then
        (⟨false, 0, r.resetAt⟩, some r)
      else
        (⟨true, (maxRequests : ℤ) - (r.count + 1), r.resetAt⟩,
         some ⟨r.count + 1, r.resetAt⟩)

/-- A sequence of calls for one identity at the given times. -/
def runRateLimit (record : Option RateLimitRecord) (times : List ℕ)
    (maxRequests windowMs : ℕ) : List RateLimitResult × Option RateLimitRecord :=
  match times with
  | [] => ([], record)
  | t :: ts =>
      let step := checkRateLimit record t maxRequests windowMs
      let rest := runRateLimit step.2 ts maxRequests windowMs
      (step.1 :: rest.1, rest.2)

/-! ## `src/lib/security.ts` — address whitelist and token derivation -/

/-- JS `String.prototype.toUpperCase` for the ASCII strings handled here
(token symbols), as a character-wise map. -/
def jsToUpper (s : String) : String := ⟨s.data.map Char.toUpper⟩

/-- JS `String.prototype.toLowerCase` for the ASCII strings handled here
(hex addresses), as a character-wise map. -/
def jsToLower (s : String) : String := ⟨s.data.map Char.toLower⟩

/-- `WHITELISTED_CONTRACTS` from `src/lib/security.ts`. -/
def WHITELISTED_CONTRACTS : List String :=
  [ "0x2626664c2603336E57B271c5C0b26F421741e481"  -- SwapRouter02
  , "0x3d4e44Eb1374240CE5F1B871ab261CD16335B76a"  -- QuoterV2
  , "0x4200000000000000000000000000000000000006"  -- WETH
  , "0x833589fCD6eDb6E08f4c7C32D4f71b54bdA02913"  -- USDC
  , "0xd9aAEc86B65D86f6A7B5B1b0c42FFA531710b6CA"  -- USDBC
  , "0xEeeeeEeeeEeEeeEeEeEeeEEEeeeeEeeeeeeeEEeE"  -- Native ETH sentinel
  ]

/-- `validateContractAddress` from `src/lib/security.ts`: case-insensitive
membership in the whitelist. -/
def validateContractAddress (address : String) : Bool :=
  let normalized := jsToLower address
  WHITELISTED_CONTRACTS.any fun whitelisted => jsToLower whitelisted == normalized

/-- `TOKEN_ADDRESS_MAP` from `src/lib/security.ts`. -/
def TOKEN_ADDRESS_MAP : List (String × String) :=
  [ ("WETH", "0x4200000000000000000000000000000000000006")
  , ("USDC", "0x833589fCD6eDb6E08f4c7C32D4f71b54bdA02913")
  , ("USDBC", "0xd9aAEc86B65D86f6A7B5B1b0c42FFA531710b6CA")
  , ("ETH", "0xEeeeeEeeeEeEeeEeEeEeeEEEeeeeEeeeeeeeEEeE")
  ]

/-- `deriveTokenAddress` from `src/lib/security.ts`.  Throwing
`Error("Unknown token symbol: ...")` is modelled as `Except.error` carrying
the thrown message. -/
def deriveTokenAddress (symbol : String) : Except String String :=
  match TOKEN_ADDRESS_MAP.lookup (jsToUpper symbol) with
  | some address => .ok address
  | none => .error ("Unknown token symbol: " ++ symbol)

/-- The argument record of `validateSwapAddresses`; the source field `to` is
named `toAddr` here because `to` is a Lean keyword. -/
structure SwapAddressParams where
  toAddr : String
  tokenInSymbol : String
  tokenOutSymbol : String
  spender : Option String

/-- `validateSwapAddresses` from `src/lib/security.ts`: throws (models as
`Except.error`) on the first violation, naming the offending value. -/
def validateSwapAddresses (params : SwapAddressParams) : Except String Unit := do
  if ¬ validateContractAddress params.toAddr then
    throw ("Invalid router address: " ++ params.toAddr)
  match params.spender with
  | some sp =>
      if ¬ validateContractAddress sp then
        throw ("Invalid spender address: " ++ sp)
  | none => pure ()
  let tokenInAddress ← deriveTokenAddress params.tokenInSymbol
  let tokenOutAddress ← deriveTokenAddress params.tokenOutSymbol
  if ¬ validateContractAddress tokenInAddress then
    throw ("Token " ++ params.tokenInSymbol ++ " not whitelisted")
  if ¬ validateContractAddress tokenOutAddress then
    throw ("Token " ++ params.tokenOutSymbol ++ " not whitelisted")

/-! ## `get-quote` route (`src/unnamed/part_009`, failover variant) — slippage
and minimum output

The handler reads `{tokenIn, tokenOut, amountIn, slippage}` from the request
body.  `slippage` is a JSON value: a number or anything else/absent, modelled
as `Option ℚ` (JSON numbers are finite, so `NaN` cannot arrive here). -/

/-- Modelled from the spec: `DEFAULT_SLIPPAGE` lives in `@/lib/uniswap`, which
is not under `src/`.  The spec lists "default slippage" among the fixed
process configuration, its end-to-end scenario uses 0.5 % (50 bps), and the
UI's default slippage tolerance is 0.5 %; the default decimal fraction is
therefore 0.005. -/
def DEFAULT_SLIPPAGE : ℚ := 5 / 1000

/-- The effective slippage fraction used by the `get-quote` handler:
`typeof slippage === 'number' ? Math.max(0, Math.min(slippage / 100, 0.5)) :
DEFAULT_SLIPPAGE`. -/
def slippageDecimal (slippage : Option ℚ) : ℚ :=
  match slippage with
  | some s => max 0 (min (s / 100) (1 / 2))
  | none => DEFAULT_SLIPPAGE

/-- `BigInt(Math.floor((1 - slippageDecimal) * 10000))` from the handler. -/
def slippageMultiplier (s : ℚ) : ℤ := ⌊(1 - s) * 10000⌋

/-- `minAmountOut = (bestQuote.amountOut * BigInt(Math.floor((1 -
slippageDecimal) * 10000))) / 10000n`.  `bigint` division truncates toward
zero (`Int.tdiv`); `amountOut` is a `uint256` quoter output, hence `ℕ`. -/
def minAmountOut (amountOut : ℕ) (s : ℚ) : ℤ :=
  Int.tdiv ((amountOut : ℤ) * slippageMultiplier s) 10000

/-! ## `get-quote` route — best-quote selection

The handler iterates `srcVariants × dstVariants × feeTiers` (in that nesting
order) and keeps `bestQuote`, replacing it only when
`!bestQuote || amountOut > bestQuote.amountOut`.  Each combination's quoter
call (with its local retry loop) either produces a
`[amountOut, _, _, gasEstimate]` tuple or fails after its retries; that
outcome is modelled as an oracle `Option QuoterSuccess` per combination. -/

/-- `TokenInfo` from `src/lib/tokens` (`src/unnamed/part_002`). -/
structure TokenInfo where
  symbol : String
  address : String
  decimals : ℕ
  name : String
  deriving Repr, DecidableEq

/-- The `uint256` pair the handler keeps from a successful
`quoteExactInputSingle` call. -/
structure QuoterSuccess where
  amountOut : ℕ
  gasEstimate : ℕ
  deriving Repr, DecidableEq

/-- The `bestQuote` record of the handler, restricted to the fields the
selection logic reads and returns (the token bookkeeping fields are carried
as the combination itself). -/
structure BestQuote (α : Type) where
  combo : α
  amountOut : ℕ
  gasEstimate : ℕ
  deriving Repr, DecidableEq

/-- The `for`-loop nest of the handler, over an already-enumerated list of
combinations with their quoter outcomes: `none` means the quoter call failed
(after its retries) and the loop `continue`s, `some` updates `bestQuote`
exactly when `!bestQuote || amountOut > bestQuote.amountOut`. -/
def bestQuoteLoop {α : Type} :
    Option (BestQuote α) → List (α × Option QuoterSuccess) → Option (BestQuote α)
  | best, [] => best
  | best, (_, none) :: rest => bestQuoteLoop best rest
  | best, (c, some r) :: rest =>
      bestQuoteLoop
        (match best with
         | none => some ⟨c, r.amountOut, r.gasEstimate⟩
         | some b =>
             if r.amountOut > b.amountOut then some ⟨c, r.amountOut, r.gasEstimate⟩
             else some b)
        rest

/-- The full selection: starts from `bestQuote = null`. -/
def bestQuote {α : Type} (results : List (α × Option QuoterSuccess)) :
    Option (BestQuote α) :=
  bestQuoteLoop none results

/-- The fixed enumeration order of the loop nest:
`for srcToken of srcVariants, for dstToken of dstVariants, for fee of
feeTiers`. -/
def comboList (srcVariants dstVariants : List TokenInfo) (feeTiers : List ℕ) :
    List (TokenInfo × TokenInfo × ℕ) :=
  srcVariants.flatMap fun srcToken =>
    dstVariants.flatMap fun dstToken =>
      feeTiers.map fun fee => (srcToken, dstToken, fee)

/-- Modelled from the spec: `FEE_TIERS` lives in `@/lib/uniswap`, which is not
under `src/`; the spec fixes the fee-tier set as `{500, 3000, 10000}` tried
in ascending order (`LOW`, `MEDIUM`, `HIGH`). -/
def feeTiers : List ℕ := [500, 3000, 10000]

/-! ## Risk classifier (`src/unnamed/part_004`)

`assessSwapRisk` and its six factor functions.  The `description` strings of
the factors are human-readable presentations of the same data
(`toLocaleString`/`toFixed` formatting) and are not modelled; nothing in the
assessment logic reads them.  `recommendations` are advisory strings built
from the factors and are likewise not modelled; no verified claim mentions
them. -/

inductive Severity
  | low
  | medium
  | high
  | critical
  deriving Repr, DecidableEq

structure RiskFactor where
  name : String
  severity : Severity
  weight : ℕ
  deriving Repr, DecidableEq

/-- `SwapParameters` from `src/unnamed/part_004` (`tokenIn`/`tokenOut` strings
are never read by the scoring logic and are omitted). -/
structure SwapParameters where
  amountUSD : ℚ
  slippage : ℚ
  priceImpact : Option ℚ
  gasEstimateUSD : Option ℚ
  marketVolatility : Option ℚ
  poolLiquidityUSD : Option ℚ
  deriving Repr, DecidableEq

/-- `assessTradeSize`. -/
def assessTradeSize (amountUSD : ℚ) : Option RiskFactor :=
  if amountUSD > 50000 then some ⟨"Very large trade", .critical, 40⟩
  else if amountUSD > 10000 then some ⟨"Large trade", .high, 25⟩
  else if amountUSD > 1000 then some ⟨"Moderate trade size", .medium, 10⟩
  else none

/-- `assessPriceImpact`. -/
def assessPriceImpact (priceImpact : ℚ) : Option RiskFactor :=
  if priceImpact > 10 then some ⟨"Extreme price impact", .critical, 50⟩
  else if priceImpact > 5 then some ⟨"High price impact", .high, 30⟩
  else if priceImpact > 2 then some ⟨"Moderate price impact", .medium, 15⟩
  else if priceImpact > 1 then some ⟨"Minor price impact", .low, 5⟩
  else none

/-- `assessSlippage`. -/
def assessSlippage (slippage : ℚ) : Option RiskFactor :=
  if slippage > 10 then some ⟨"Very high slippage tolerance", .high, 25⟩
  else if slippage > 5 then some ⟨"High slippage tolerance", .medium, 15⟩
  else if slippage > 2 then some ⟨"Elevated slippage", .low, 5⟩
  else none

/-- `assessVolatility` (thresholds on `Math.abs(volatility)`). -/
def assessVolatility (volatility : ℚ) : Option RiskFactor :=
  let absVolatility := |volatility|
  if absVolatility > 15 then some ⟨"Extreme market volatility", .high, 30⟩
  else if absVolatility > 10 then some ⟨"High market volatility", .medium, 20⟩
  else if absVolatility > 5 then some ⟨"Moderate volatility", .low, 10⟩
  else none

/-- `assessLiquidity`.  The `poolLiquidityUSD < 50000` branch is tested before
`tradeRatio` is compared, so the division (JS `Infinity` when the pool is 0)
is only reached with `poolLiquidityUSD ≥ 50000 > 0`, where `ℚ` division
agrees with JS. -/
def assessLiquidity (poolLiquidityUSD tradeAmountUSD : ℚ) : Option RiskFactor :=
  let tradeRatio := tradeAmountUSD / poolLiquidityUSD * 100
  if poolLiquidityUSD < 50000 then some ⟨"Very low pool liquidity", .critical, 40⟩
  else if tradeRatio > 10 then some ⟨"Trade size vs liquidity mismatch", .high, 30⟩
  else if tradeRatio > 5 then some ⟨"Moderate liquidity concern", .medium, 15⟩
  else none

/-- `assessGasCost` (only called with `tradeAmountUSD > 0`). -/
def assessGasCost (gasUSD tradeAmountUSD : ℚ) : Option RiskFactor :=
  let gasRatio := gasUSD / tradeAmountUSD * 100
  if gasRatio > 10 then some ⟨"Very high gas cost", .high, 20⟩
  else if gasRatio > 5 then some ⟨"High gas cost", .medium, 10⟩
  else none

/-- `getRiskLevel`. -/
def getRiskLevel (score : ℕ) : Severity :=
  if score ≥ 70 then .critical
  else if score ≥ 40 then .high
  else if score ≥ 20 then .medium
  else .low

/-- The six optional factors of `assessSwapRisk`, in evaluation order.
Factors 2, 4, 5, 6 are only evaluated when their input is present
(`!== undefined`), and factor 6 additionally requires `amountUSD > 0`. -/
def riskFactorOptions (p : SwapParameters) : List (Option RiskFactor) :=
  [ assessTradeSize p.amountUSD
  , p.priceImpact.bind assessPriceImpact
  , assessSlippage p.slippage
  , p.marketVolatility.bind assessVolatility
  , p.poolLiquidityUSD.bind fun pool => assessLiquidity pool p.amountUSD
  , match p.gasEstimateUSD with
    | some gas => if p.amountUSD > 0 then assessGasCost gas p.amountUSD else none
    | none => none
  ]

structure SwapRiskAssessment where
  riskLevel : Severity
  score : ℕ
  factors : List RiskFactor
  shouldProceed : Bool
  deriving Repr, DecidableEq

/-- `assessSwapRisk`: pushes each triggered factor and adds its weight to
`totalScore`, then `riskLevel = getRiskLevel(totalScore)`,
`score = Math.min(100, totalScore)`, `shouldProceed = riskLevel !==
'critical'`. -/
def assessSwapRisk (p : SwapParameters) : SwapRiskAssessment :=
  let factors := (riskFactorOptions p).filterMap id
  let totalScore := (factors.map (·.weight)).sum
  { riskLevel := getRiskLevel totalScore
    score := min 100 totalScore
    factors := factors
    shouldProceed := getRiskLevel totalScore ≠ .critical }

/-! ## RPC failover client (`src/unnamed/part_000`)

`fetchWithFailover(path, options, maxRetries = 3)` walks the
priority-ordered `RPC_PROVIDERS` list; per provider it makes attempts
`1..maxRetries`.  An attempt's observable outcome — an HTTP response with a
status, or a thrown network error with a message — is an oracle
`Provider → ℕ → FetchOutcome` (attempt numbers start at 1, matching the
source loop).  `await`ed backoff delays are collected as a trace of
milliseconds so the schedule can be reasoned about. -/

/-- An RPC provider; priority is the position in the list, as in the sorted
`RPC_PROVIDERS` array (`url` is part of the request, not of the control
flow). -/
structure RPCProvider where
  name : String
  deriving Repr, DecidableEq

/-- What one `fetch` attempt does. -/
inductive FetchOutcome
  | response (status : ℕ) (body : ℕ)
  | netError (msg : String)
  deriving Repr, DecidableEq

/-- `response.ok`: status in the range 200–299. -/
def responseOk (status : ℕ) : Bool := 200 ≤ status && status ≤ 299

/-- The successful-response value an attempt yields, if any: the code returns
the response exactly when `response.ok`. -/
def attemptSuccess (o : FetchOutcome) : Option (ℕ × ℕ) :=
  match o with
  | .response status body => if responseOk status then some (status, body) else none
  | .netError _ => none

/-- The error message an attempt contributes to `lastError`:
a non-ok response throws `Error` with message
`provider.name ++ " returned " ++ status`, and a network error carries its
own message. -/
def attemptErrMsg (name : String) (o : FetchOutcome) : Option String :=
  match o with
  | .response status _ =>
      if responseOk status then none else some (name ++ " returned " ++ toString status)
  | .netError msg => some msg

/-- The inner `for (attempt = 1; attempt <= maxRetries; attempt++)` loop for
one provider: returns the successful response if one attempt succeeds, the
threaded `lastError`, and the backoff delays `2 ^ attempt * 100` awaited
after each failed attempt with `attempt < maxRetries`. -/
def tryProvider (name : String) (oracle : ℕ → FetchOutcome) (maxRetries : ℕ) :
    List ℕ → Option String → Option (ℕ × ℕ) × Option String × List ℕ
  | [], lastError => (none, lastError, [])
  | attempt :: rest, lastError =>
      match attemptSuccess (oracle attempt) with
      | some resp => (some resp, lastError, [])
      | none =>
          let lastError := attemptErrMsg name (oracle attempt)
          let delay := if attempt < maxRetries then [2 ^ attempt * 100] else []
          let next := tryProvider name oracle maxRetries rest lastError
          (next.1, next.2.1, delay ++ next.2.2)

/-- `lastError?.message || 'Unknown error'`: a JS falsy test, hence `null`
and the empty message both render as `Unknown error`. -/
def errorTextOf (lastError : Option String) : String :=
  match lastError with
  | some msg => if msg = "" then "Unknown error" else msg
  | none => "Unknown error"

/-- The outer `for (const provider of RPC_PROVIDERS)` loop. -/
def failoverLoop (oracle : RPCProvider → ℕ → FetchOutcome) (maxRetries : ℕ) :
    List RPCProvider → Option String → Except String (ℕ × ℕ) × List ℕ
  | [], lastError =>
      (.error ("All RPC providers failed. Last error: " ++ errorTextOf lastError), [])
  | provider :: rest, lastError =>
      match tryProvider provider.name (oracle provider) maxRetries
          (List.range' 1 maxRetries) lastError with
      | (some resp, _, delays) => (.ok resp, delays)
      | (none, lastError, delays) =>
          let next := failoverLoop oracle maxRetries rest lastError
          (next.1, delays ++ next.2)

/-- `fetchWithFailover`: `lastError` starts as `null`. -/
def fetchWithFailover (providers : List RPCProvider)
    (oracle : RPCProvider → ℕ → FetchOutcome) (maxRetries : ℕ) :
    Except String (ℕ × ℕ) × List ℕ :=
  failoverLoop oracle maxRetries providers none

/-- Written from the spec's words, for the refinement statement: the first
successful response in priority order, attempts in increasing order. -/
def firstSuccessRef (providers : List RPCProvider)
    (oracle : RPCProvider → ℕ → FetchOutcome) (maxRetries : ℕ) : Option (ℕ × ℕ) :=
  providers.findSome? fun provider =>
    (List.range' 1 maxRetries).findSome? fun attempt =>
      attemptSuccess (oracle provider attempt)

/-- Written from the spec's words: the last error seen when everything fails
is the message of the last provider's final attempt. -/
def lastErrorRef (providers : List RPCProvider)
    (oracle : RPCProvider → ℕ → FetchOutcome) (maxRetries : ℕ) : Option String :=
  providers.getLast?.bind fun provider =>
    if maxRetries = 0 then none else attemptErrMsg provider.name (oracle provider maxRetries)

/-- The `lastError` value threaded through `failoverLoop` when every attempt
fails: the message of the last provider's final attempt (or the starting
value when there are no attempts at all). -/
def threadedLastError (oracle : RPCProvider → ℕ → FetchOutcome) (maxRetries : ℕ)
    (providers : List RPCProvider) (lastError : Option String) : Option String :=
  if maxRetries = 0 then lastError
  else
    match providers.getLast? with
    | some provider => attemptErrMsg provider.name (oracle provider maxRetries)
    | none => lastError

/-! ## Swap lifecycle state machine (`src/unnamed/part_011`, `SwapInterface`
with the imperative handle)

The component's React state drives a nine-step lifecycle.  Each handler is an
`async` function whose external calls (`/api/check-approval`,
`/api/build-swap`, `/api/simulate`, `sendTransaction`) have
environment-chosen outcomes; a handler run is modelled as one atomic
transition parameterised by that outcome (cooperative single-session
scheduling, per the source's usage).  `loading` only disables buttons in the
rendering and gates no handler, so it is not part of the model. -/

inductive SwapStep
  | input
  | parsed
  | quote
  | approval_needed
  | approving
  | simulated
  | executing
  | complete
  deriving Repr, DecidableEq

/-- `ParsedIntent` from the component. -/
structure ParsedIntent where
  token_in : String
  token_out : String
  amount_in : ℚ
  deriving Repr, DecidableEq

/-- `QuoteToken` from the component. -/
structure QuoteToken where
  symbol : String
  address : String
  decimals : ℕ
  poolAddress : String
  poolDecimals : ℕ
  deriving Repr, DecidableEq

/-- `Quote` from the component (the payload is carried opaquely by the
transitions). -/
structure Quote where
  expectedOutput : ℕ
  minOutput : ℕ
  estimatedGas : ℕ
  feeTier : ℕ
  price : ℚ
  tokenIn : QuoteToken
  tokenOut : QuoteToken
  deriving Repr, DecidableEq

/-- `{to, data, value}` from `/api/build-swap`; `to` is a Lean keyword, so
the field is `toAddr`. -/
structure TxData where
  toAddr : String
  data : String
  value : String
  deriving Repr, DecidableEq

/-- `SimulationResult` from the component; the source field `error` is named
`errMsg` here to avoid clashing with `Except.error` dot-notation. -/
structure SimulationResult where
  success : Bool
  gasUsed : String
  errMsg : Option String
  deriving Repr, DecidableEq

/-- The component state the transitions read and write. -/
structure SwapUIState where
  step : SwapStep
  address : Option String
  parsedIntent : Option ParsedIntent
  quote : Option Quote
  simulation : Option SimulationResult
  txData : Option TxData
  needsApproval : Bool
  isApprovingToken : Bool
  error : Option String
  deriving Repr, DecidableEq

/-- Environment outcome of one `handleSimulate` run.  The two approval
outcomes can only arise when `quote.tokenIn.symbol !== 'ETH'`; allowing them
for any input only adds behaviours. -/
inductive SimulateOutcome
  | approvalCheckHttpFail (msg : String)
  | approvalNeeded
  | buildHttpFail (msg : String)
  | simHttpFail (tx : TxData) (msg : String)
  | simReturned (tx : TxData) (result : SimulationResult)
  deriving Repr, DecidableEq

/-- Environment outcome of a `sendTransaction` call. -/
inductive SendOutcome
  | sendOk
  | sendFail (msg : String)
  deriving Repr, DecidableEq

/-- Environment outcome of a quote fetch. -/
inductive QuoteOutcome
  | ok (q : Quote)
  | fail (msg : String)
  deriving Repr, DecidableEq

/-- `fetchQuoteForIntent`: clears the error, and on success stores the quote
and enters `quote`; on failure only sets the error message.  It does not
clear `txData` or `simulation` from an earlier attempt. -/
def fetchQuoteForIntent (s : SwapUIState) (outcome : QuoteOutcome) : SwapUIState :=
  let s := { s with error := none }
  match outcome with
  | .ok q => { s with quote := some q, step := .quote }
  | .fail msg => { s with error := some msg }

/-- The `pendingIntent` effect: stores the parsed intent, enters `parsed`,
then runs `fetchQuoteForIntent` (the resolved slippage plumbing does not
touch the lifecycle fields). -/
def receiveIntent (s : SwapUIState) (intent : ParsedIntent) (outcome : QuoteOutcome) :
    SwapUIState :=
  fetchQuoteForIntent { s with parsedIntent := some intent, step := .parsed } outcome

/-- `handleFetchQuote`: guarded on a parsed intent. -/
def handleFetchQuote (s : SwapUIState) (outcome : QuoteOutcome) : SwapUIState :=
  if s.parsedIntent = none then s else fetchQuoteForIntent s outcome

/-- `handleSimulate`: guarded on `parsedIntent`, `address` and `quote`;
clears the error; on the ERC-20 path may stop at `approval_needed`; stores
`txData` as soon as `/api/build-swap` succeeds — also when the subsequent
simulation fails; a simulation reporting `success: false` throws
`Transaction would fail: ...` after `setSimulation`, leaving `step`
unchanged. -/
def handleSimulate (s : SwapUIState) (outcome : SimulateOutcome) : SwapUIState :=
  if s.parsedIntent = none ∨ s.address = none ∨ s.quote = none then s
  else
    let s := { s with error := none }
    match outcome with
    | .approvalCheckHttpFail msg => { s with error := some msg }
    | .approvalNeeded => { s with needsApproval := true, step := .approval_needed }
    | .buildHttpFail msg => { s with error := some msg }
    | .simHttpFail tx msg => { s with txData := some tx, error := some msg }
    | .simReturned tx result =>
        if result.success then
          { s with txData := some tx, simulation := some result,
                   needsApproval := false, step := .simulated }
        else
          { s with txData := some tx, simulation := some result,
                   error := some ("Transaction would fail: " ++
                     (match result.errMsg with
                      | some m => if m = "" then "Unknown error" else m
                      | none => "Unknown error")) }

/-- Environment outcome of one `handleApprove` run. -/
inductive ApproveOutcome
  | buildApprovalHttpFail
  | send (result : SendOutcome)
  deriving Repr, DecidableEq

/-- `handleApprove`: guarded like `handleSimulate`; enters `approving` and
sets `isApprovingToken`; on any thrown error returns to `quote`. -/
def handleApprove (s : SwapUIState) (outcome : ApproveOutcome) : SwapUIState :=
  if s.parsedIntent = none ∨ s.address = none ∨ s.quote = none then s
  else
    let s := { s with error := none, step := .approving, isApprovingToken := true }
    match outcome with
    | .buildApprovalHttpFail =>
        { s with error := some "Failed to build approval", step := .quote,
                 isApprovingToken := false }
    | .send .sendOk => s
    | .send (.sendFail msg) =>
        { s with error := some msg, step := .quote, isApprovingToken := false }

/-- The approval-receipt effect: when the approval transaction confirms while
`step === 'approving'` and `isApprovingToken`, it clears the flag and re-runs
`handleSimulate`. -/
def approvalConfirmed (s : SwapUIState) (outcome : SimulateOutcome) : SwapUIState :=
  if s.isApprovingToken ∧ s.step = .approving then
    handleSimulate { s with isApprovingToken := false } outcome
  else s

/-- `handleExecuteSwap`: guarded only on `txData`; enters `executing` before
`sendTransaction`; a thrown send error returns the machine to `simulated`. -/
def handleExecuteSwap (s : SwapUIState) (outcome : SendOutcome) : SwapUIState :=
  if s.txData = none then s
  else
    let s := { s with error := none, step := .executing }
    match outcome with
    | .sendOk => s
    | .sendFail msg => { s with error := some msg, step := .simulated }

/-- The swap-receipt effect: a confirmed receipt while `step === 'executing'`
and not approving advances to `complete` (the auto-reset afterwards is the
`reset` operation). -/
def swapConfirmed (s : SwapUIState) : SwapUIState :=
  if s.step = .executing ∧ ¬ s.isApprovingToken then { s with step := .complete } else s

/-- `handleReset`. -/
def handleReset (s : SwapUIState) : SwapUIState :=
  { s with step := .input, parsedIntent := none, quote := none, simulation := none,
           txData := none, error := none, needsApproval := false,
           isApprovingToken := false }

/-- The operations a user session can trigger, each with its
environment-chosen outcome.  `simulate` and `execute` are reachable both from
the rendered buttons and from the imperative copilot handle
(`ref.simulate()` / `ref.execute()`), which invokes them in any step. -/
inductive SwapOp
  | receiveIntent (intent : ParsedIntent) (outcome : QuoteOutcome)
  | fetchQuote (outcome : QuoteOutcome)
  | simulate (outcome : SimulateOutcome)
  | approve (outcome : ApproveOutcome)
  | approvalConfirmed (outcome : SimulateOutcome)
  | execute (outcome : SendOutcome)
  | swapConfirmed
  | reset
  deriving Repr, DecidableEq

def applyOp (s : SwapUIState) : SwapOp → SwapUIState
  | .receiveIntent intent outcome => receiveIntent s intent outcome
  | .fetchQuote outcome => handleFetchQuote s outcome
  | .simulate outcome => handleSimulate s outcome
  | .approve outcome => handleApprove s outcome
  | .approvalConfirmed outcome => SwapWright.approvalConfirmed s outcome
  | .execute outcome => handleExecuteSwap s outcome
  | .swapConfirmed => SwapWright.swapConfirmed s
  | .reset => handleReset s

/-- The initial component state for a connected wallet. -/
def initialState (addr : String) : SwapUIState :=
  { step := .input, address := some addr, parsedIntent := none, quote := none,
    simulation := none, txData := none, needsApproval := false,
    isApprovingToken := false, error := none }

/-- All states visited while running `ops` from `s` (including `s`). -/
def runTrace (s : SwapUIState) (ops : List SwapOp) : List SwapUIState :=
  ops.scanl applyOp s

/-! ## Verification helpers (not from the source) -/

/-- The weight a factor option contributes to `totalScore` (0 when the factor
does not trigger). -/
def optWeight (o : Option RiskFactor) : ℕ := o.elim 0 (·.weight)

/-- The uncapped `totalScore` accumulated by `assessSwapRisk`. -/
def totalRiskScore (p : SwapParameters) : ℕ :=
  ((riskFactorOptions p).map optWeight).sum

/-- The successful combinations of a result list, in discovery order. -/
def successesOf {α : Type} (results : List (α × Option QuoterSuccess)) :
    List (α × QuoterSuccess) :=
  results.filterMap fun cr => cr.2.map fun r => (cr.1, r)

/-- The `bestQuote` record a successful combination would produce. -/
def toBest {α : Type} (x : α × QuoterSuccess) : BestQuote α :=
  ⟨x.1, x.2.amountOut, x.2.gasEstimate⟩

/-- The selection fold restricted to the successful combinations. -/
def pickBestAux {α : Type} :
    Option (α × QuoterSuccess) → List (α × QuoterSuccess) → Option (α × QuoterSuccess)
  | best, [] => best
  | none, x :: rest => pickBestAux (some x) rest
  | some b, x :: rest =>
      pickBestAux (if x.2.amountOut > b.2.amountOut then some x else some b) rest

/-- Concrete lifecycle data: a parsed ETH→USDC intent. -/
def staleIntent : ParsedIntent := ⟨"ETH", "USDC", 1⟩

/-- Concrete lifecycle data: the quote returned for it (ETH input, so the
simulate path skips the approval check). -/
def staleQuote : Quote :=
  ⟨3500000000, 3482500000, 150000, 3000, 3500,
   ⟨"ETH", "0xEeeeeEeeeEeEeeEeEeEeeEEEeeeeEeeeeeeeEEeE", 18,
    "0x4200000000000000000000000000000000000006", 18⟩,
   ⟨"USDC", "0x833589fCD6eDb6E08f4c7C32D4f71b54bdA02913", 6,
    "0x833589fCD6eDb6E08f4c7C32D4f71b54bdA02913", 6⟩⟩

/-- Concrete lifecycle data: the transaction `/api/build-swap` returned. -/
def staleTxData : TxData :=
  ⟨"0x2626664c2603336E57B271c5C0b26F421741e481", "0x04e45aaf",
   "1000000000000000000"⟩

/-- Concrete lifecycle data: a simulation that reports failure. -/
def failedSimulation : SimulationResult := ⟨false, "0", some "execution reverted"⟩

/-- The operation sequence refuting C3: fetch a quote, simulate (build
succeeds, the simulation reports failure, so `txData` stays set and the
machine stays in `quote`), then request execute through the imperative
copilot handle. -/
def staleExecuteOps : List SwapOp :=
  [ .receiveIntent staleIntent (.ok staleQuote)
  , .simulate (.simReturned staleTxData failedSimulation)
  , .execute .sendOk ]

/-- A reachable `quote`-step state carrying the stale `txData` of a failed
simulation (the state after the first two operations of
`staleExecuteOps`). -/
def staleQuoteState : SwapUIState :=
  { step := .quote, address := some "0x1111", parsedIntent := some staleIntent,
    quote := some staleQuote, simulation := some failedSimulation,
    txData := some staleTxData, needsApproval := false, isApprovingToken := false,
    error := some "Transaction would fail: execution reverted" }

/-- Concrete scenario data (spec §8): the single ETH variant. -/
def scenarioTokenIn : TokenInfo :=
  ⟨"ETH", "0xEeeeeEeeeEeEeeEeEeEeeEEEeeeeEeeeeeeeEEeE", 18, "Ethereum"⟩

/-- Concrete scenario data (spec §8): the single USDC variant. -/
def scenarioTokenOut : TokenInfo :=
  ⟨"USDC", "0x833589fCD6eDb6E08f4c7C32D4f71b54bdA02913", 6, "USD Coin"⟩

/-- Concrete scenario data (spec §8): quoter outputs 100 / 105 / 98 for the
fee tiers 500 / 3000 / 10000. -/
def scenarioQuoter : TokenInfo × TokenInfo × ℕ → Option QuoterSuccess := fun c =>
  if c.2.2 = 500 then some ⟨100, 21000⟩
  else if c.2.2 = 3000 then some ⟨105, 21000⟩
  else some ⟨98, 21000⟩

/-!
# Theorems

One theorem per claim (C1–C10), with witnesses for the theorems that carry
hypotheses, counterexamples where the claim fails on the code, and shared
helper lemmas.
-/

/-! ## C7 — unknown token symbols and non-whitelisted routers -/

/-- C7: `deriveTokenAddress` throws `Unknown token symbol` naming the symbol
for every symbol whose uppercase form is absent from the hardcoded table — in
particular for `"BTC"` — and `validateSwapAddresses` throws `Invalid router
address` naming the router for every input whose `to` address fails the
(case-insensitive) whitelist check, regardless of the remaining fields. -/
theorem deriveTokenAddress_unknown_and_router_rejected :
    (∀ symbol : String, TOKEN_ADDRESS_MAP.lookup (jsToUpper symbol) = none →
      deriveTokenAddress symbol = .error ("Unknown token symbol: " ++ symbol)) ∧
    deriveTokenAddress "BTC" = .error "Unknown token symbol: BTC" ∧
    (∀ params : SwapAddressParams, validateContractAddress params.toAddr = false →
      validateSwapAddresses params = .error ("Invalid router address: " ++ params.toAddr)) := by
  refine ⟨fun symbol h => ?_, by rfl, fun params h => ?_⟩
  · simp [deriveTokenAddress, h]
  · simp only [validateSwapAddresses, h]
    rfl

/-- Witness for C7 at concrete inputs: `"BTC"` is not in the table, and a
swap whose router is not whitelisted is rejected naming that router even
though both token symbols and the spender are valid. -/
theorem deriveTokenAddress_unknown_and_router_rejected_witness :
    deriveTokenAddress "BTC" = .error "Unknown token symbol: BTC" ∧
    validateSwapAddresses
        ⟨"0x000000000000000000000000000000000000dEaD", "ETH", "USDC",
         some "0x2626664c2603336E57B271c5C0b26F421741e481"⟩ =
      .error "Invalid router address: 0x000000000000000000000000000000000000dEaD" := by
  refine ⟨deriveTokenAddress_unknown_and_router_rejected.2.1, ?_⟩
  exact deriveTokenAddress_unknown_and_router_rejected.2.2
    ⟨"0x000000000000000000000000000000000000dEaD", "ETH", "USDC",
     some "0x2626664c2603336E57B271c5C0b26F421741e481"⟩ (by decide)

/-! ## C5 — rate-limit window behaviour -/

/-- The lazy eviction deletes a record only when `resetAt < now`; the
new-window branch treats a deleted record and an expired one identically, so
modelling the store without the probabilistic cleanup loses nothing. -/
theorem checkRateLimit_evict_irrelevant (r : RateLimitRecord)
    (now maxRequests windowMs : ℕ) (h : r.resetAt < now) :
    checkRateLimit (some r) now maxRequests windowMs =
      checkRateLimit none now maxRequests windowMs := by
  simp [checkRateLimit, h]

/-- Helper: calls inside an open window (each time at most the record's
`resetAt`) increment the counter while it stays below `maxRequests`. -/
theorem runRateLimit_record_of_within (maxRequests windowMs : ℕ) :
    ∀ (ts : List ℕ) (c R : ℕ), (∀ t ∈ ts, t ≤ R) → c + ts.length ≤ maxRequests →
      (runRateLimit (some ⟨c, R⟩) ts maxRequests windowMs).2 =
        some ⟨c + ts.length, R⟩ := by
  intro ts
  induction ts with
  | nil => intro c R _ _; simp [runRateLimit]
  | cons t ts ih =>
      intro c R hwithin hcount
      have ht : t ≤ R := hwithin t (List.mem_cons_self t ts)
      have hnotexp : ¬ R < t := not_lt.mpr ht
      have hcap : ¬ maxRequests ≤ c := by
        simp only [List.length_cons] at hcount
        omega
      have hrest :
          (runRateLimit (some ⟨c + 1, R⟩) ts maxRequests windowMs).2 =
            some ⟨c + 1 + ts.length, R⟩ := by
        refine ih (c + 1) R (fun x hx => hwithin x (List.mem_cons_of_mem t hx)) ?_
        simp only [List.length_cons] at hcount
        omega
      simp only [runRateLimit, checkRateLimit, hnotexp, if_false, hcap, hrest,
        List.length_cons]
      congr 2
      omega

/-- C5: with `max = 20`, `window = 60000`: (a) starting from no record, after
a first call at `t0` and nineteen further calls inside the window
(`t ≤ t0 + 60000`, i.e. `now ≤ windowResetAt`), the record holds
`count = 20`, and a 21st call still inside the window is refused with
`remaining = 0` and the unchanged `resetAt = t0 + 60000`; (b) a call finding
no record or an expired one (`resetAt < now`) opens a fresh window:
`allowed = true`, `remaining = 19`, `resetAt = now + 60000`. -/
theorem checkRateLimit_twentyfirst_refused_and_fresh_window :
    (∀ (t0 : ℕ) (rest : List ℕ), rest.length = 19 →
      (∀ t ∈ rest, t ≤ t0 + 60000) →
      ∀ t21 : ℕ, t21 ≤ t0 + 60000 →
        (runRateLimit none (t0 :: rest) 20 60000).2 = some ⟨20, t0 + 60000⟩ ∧
        (checkRateLimit ((runRateLimit none (t0 :: rest) 20 60000).2) t21 20 60000).1 =
          ⟨false, 0, t0 + 60000⟩) ∧
    (∀ (record : Option RateLimitRecord) (now : ℕ),
      (∀ r, record = some r → r.resetAt < now) →
      (checkRateLimit record now 20 60000).1 = ⟨true, 19, now + 60000⟩) := by
  constructor
  · intro t0 rest hlen hwithin t21 ht21
    have hrec : (runRateLimit none (t0 :: rest) 20 60000).2 = some ⟨20, t0 + 60000⟩ := by
      have h1 :
          (runRateLimit (some ⟨1, t0 + 60000⟩) rest 20 60000).2 =
            some ⟨1 + rest.length, t0 + 60000⟩ :=
        runRateLimit_record_of_within 20 60000 rest 1 (t0 + 60000) hwithin (by omega)
      simp only [runRateLimit, checkRateLimit, h1, hlen]
    refine ⟨hrec, ?_⟩
    rw [hrec]
    have hnotexp : ¬ t0 + 60000 < t21 := not_lt.mpr ht21
    simp [checkRateLimit, hnotexp]
  · intro record now hexp
    match record with
    | none => simp [checkRateLimit]
    | some r =>
        have hr : r.resetAt < now := hexp r rfl
        simp [checkRateLimit, hr]

/-- Witness for C5 at a concrete trace: twenty-one calls at time 1000 for one
identity, and a fresh-window call at time 99999 against an expired record. -/
theorem checkRateLimit_twentyfirst_refused_and_fresh_window_witness :
    ((runRateLimit none (1000 :: List.replicate 19 1000) 20 60000).2 =
        some ⟨20, 61000⟩ ∧
      (checkRateLimit ((runRateLimit none (1000 :: List.replicate 19 1000) 20 60000).2)
          1000 20 60000).1 = ⟨false, 0, 61000⟩) ∧
    (checkRateLimit (some ⟨20, 61000⟩) 99999 20 60000).1 = ⟨true, 19, 159999⟩ := by
  have h := checkRateLimit_twentyfirst_refused_and_fresh_window
  refine ⟨?_, ?_⟩
  · have := h.1 1000 (List.replicate 19 1000) (by decide)
      (by intro t ht; simp at ht; omega) 1000 (by omega)
    simpa using this
  · have := h.2 (some ⟨20, 61000⟩) 99999 (by intro r hr; cases hr; decide)
    simpa using this

/-! ## C4 — risk score, level bands, shouldProceed -/

/-- C4: the returned `score` is the weight sum of the returned factors capped
at 100; the level is computed from the *uncapped* weight sum by the bands
`critical ≥ 70`, `high ∈ [40, 70)`, `medium ∈ [20, 40)`, else `low`; and
`shouldProceed` is false exactly for a critical level. -/
theorem assessSwapRisk_score_level_shouldProceed (p : SwapParameters) :
    (assessSwapRisk p).score =
      min 100 (((assessSwapRisk p).factors.map (·.weight)).sum) ∧
    ((assessSwapRisk p).riskLevel = .critical ↔
      70 ≤ ((assessSwapRisk p).factors.map (·.weight)).sum) ∧
    ((assessSwapRisk p).riskLevel = .high ↔
      40 ≤ ((assessSwapRisk p).factors.map (·.weight)).sum ∧
        ((assessSwapRisk p).factors.map (·.weight)).sum < 70) ∧
    ((assessSwapRisk p).riskLevel = .medium ↔
      20 ≤ ((assessSwapRisk p).factors.map (·.weight)).sum ∧
        ((assessSwapRisk p).factors.map (·.weight)).sum < 40) ∧
    ((assessSwapRisk p).riskLevel = .low ↔
      ((assessSwapRisk p).factors.map (·.weight)).sum < 20) ∧
    ((assessSwapRisk p).shouldProceed = false ↔
      (assessSwapRisk p).riskLevel = .critical) := by
  simp only [assessSwapRisk, getRiskLevel]
  split_ifs with h1 h2 h3 <;> simp_all <;> omega

/-! ## C8 — a lone `priceImpact = 6` input -/

/-- The concrete claim-C8 input: `priceImpact = 6` triggers, every other
factor is absent or below its lowest threshold. -/
def priceImpactOnlyParams : SwapParameters :=
  { amountUSD := 0, slippage := 0, priceImpact := some 6,
    gasEstimateUSD := none, marketVolatility := none, poolLiquidityUSD := none }

/-- Counterexample to C8: on an input where only the price-impact factor
triggers (at `priceImpact = 6`, weight 30), the returned level is neither
`high` nor `critical` — it is `medium`, because `getRiskLevel 30` falls in
the `[20, 40)` band. -/
theorem assessSwapRisk_priceImpact6_not_high_or_critical :
    ¬ ((assessSwapRisk priceImpactOnlyParams).riskLevel = .high ∨
       (assessSwapRisk priceImpactOnlyParams).riskLevel = .critical) := by
  decide

/-- C8 amended: with `priceImpact = 6` triggering alone (trade size at most
$1000, slippage at most 2 %, the other factors absent), the triggered factor
is the weight-30 `High price impact` factor with severity `high`, but the
overall level is `medium` with score 30. -/
theorem assessSwapRisk_priceImpact6_medium (p : SwapParameters)
    (hpi : p.priceImpact = some 6) (hamt : p.amountUSD ≤ 1000)
    (hsl : p.slippage ≤ 2) (hvol : p.marketVolatility = none)
    (hliq : p.poolLiquidityUSD = none) (hgas : p.gasEstimateUSD = none) :
    (assessSwapRisk p).factors = [⟨"High price impact", .high, 30⟩] ∧
    (assessSwapRisk p).score = 30 ∧
    (assessSwapRisk p).riskLevel = .medium := by
  have hts : assessTradeSize p.amountUSD = none := by
    simp only [assessTradeSize]
    have h1 : ¬ p.amountUSD > 50000 := by linarith
    have h2 : ¬ p.amountUSD > 10000 := by linarith
    have h3 : ¬ p.amountUSD > 1000 := by linarith
    simp [h1, h2, h3]
  have hslip : assessSlippage p.slippage = none := by
    simp only [assessSlippage]
    have h1 : ¬ p.slippage > 10 := by linarith
    have h2 : ¬ p.slippage > 5 := by linarith
    have h3 : ¬ p.slippage > 2 := by linarith
    simp [h1, h2, h3]
  have hpi6 : assessPriceImpact 6 = some ⟨"High price impact", .high, 30⟩ := by
    decide
  simp [assessSwapRisk, riskFactorOptions, hpi, hts, hslip, hvol, hliq, hgas, hpi6,
    getRiskLevel]

/-- Witness for the amended C8 at the concrete input. -/
theorem assessSwapRisk_priceImpact6_medium_witness :
    (assessSwapRisk priceImpactOnlyParams).factors =
        [⟨"High price impact", Severity.high, 30⟩] ∧
    (assessSwapRisk priceImpactOnlyParams).score = 30 ∧
    (assessSwapRisk priceImpactOnlyParams).riskLevel = .medium :=
  assessSwapRisk_priceImpact6_medium priceImpactOnlyParams rfl
    (by norm_num [priceImpactOnlyParams]) (by norm_num [priceImpactOnlyParams])
    rfl rfl rfl

/-! ## Slippage / minimum-output helper lemmas -/

theorem slippageDecimal_nonneg (slippage : Option ℚ) : 0 ≤ slippageDecimal slippage := by
  cases slippage with
  | none => norm_num [slippageDecimal, DEFAULT_SLIPPAGE]
  | some s => simp [slippageDecimal, le_max_iff]

theorem slippageDecimal_le_half (slippage : Option ℚ) :
    slippageDecimal slippage ≤ 1 / 2 := by
  cases slippage with
  | none => norm_num [slippageDecimal, DEFAULT_SLIPPAGE]
  | some s =>
      simp only [slippageDecimal, max_le_iff]
      constructor
      · norm_num
      · exact min_le_right _ _

theorem slippageMultiplier_nonneg {s : ℚ} (h : s ≤ 1) : 0 ≤ slippageMultiplier s := by
  unfold slippageMultiplier
  have : (0 : ℚ) ≤ (1 - s) * 10000 := by nlinarith
  exact_mod_cast Int.le_floor.mpr (by exact_mod_cast this)

theorem slippageMultiplier_le_10000 {s : ℚ} (h : 0 ≤ s) :
    slippageMultiplier s ≤ 10000 := by
  unfold slippageMultiplier
  have : (1 - s) * 10000 ≤ (10000 : ℚ) := by nlinarith
  calc ⌊(1 - s) * 10000⌋ ≤ ⌊(10000 : ℚ)⌋ := Int.floor_le_floor this
    _ = 10000 := by norm_num

theorem slippageMultiplier_ge_5000 {s : ℚ} (h : s ≤ 1 / 2) :
    5000 ≤ slippageMultiplier s := by
  unfold slippageMultiplier
  have : (5000 : ℚ) ≤ (1 - s) * 10000 := by nlinarith
  calc (5000 : ℤ) = ⌊(5000 : ℚ)⌋ := by norm_num
    _ ≤ ⌊(1 - s) * 10000⌋ := Int.floor_le_floor this

theorem slippageMultiplier_antitone {s1 s2 : ℚ} (h : s2 ≤ s1) :
    slippageMultiplier s1 ≤ slippageMultiplier s2 := by
  unfold slippageMultiplier
  exact Int.floor_le_floor (by nlinarith)

/-- On the effective slippage range the truncating `bigint` division is the
Euclidean one. -/
theorem minAmountOut_eq_ediv (amountOut : ℕ) {s : ℚ} (h : s ≤ 1) :
    minAmountOut amountOut s = ((amountOut : ℤ) * slippageMultiplier s) / 10000 := by
  unfold minAmountOut
  exact Int.tdiv_eq_ediv
    (mul_nonneg (Int.natCast_nonneg amountOut) (slippageMultiplier_nonneg h))
    (by norm_num)

/-! ## C1 — minOut bounded by amountOut, and the bps formula -/

/-- C1: for every successful quote and every effective slippage (clamped
client value or default), `minOutput ≤ expectedOutput`; and whenever the
effective slippage is exactly `bps/10000` for an integer `bps` — IEEE-754
arithmetic delivers this exactly for the dyadic cases, e.g. `slippage = 50`
or `slippage = 25` — the returned `minOutput` is
`⌊amountOut * (1 - bps/10000)⌋`. -/
theorem minAmountOut_le_amountOut_and_bps (slippage : Option ℚ) (amountOut : ℕ) :
    minAmountOut amountOut (slippageDecimal slippage) ≤ (amountOut : ℤ) ∧
    (∀ bps : ℕ, slippageDecimal slippage = (bps : ℚ) / 10000 →
      minAmountOut amountOut (slippageDecimal slippage) =
        ⌊(amountOut : ℚ) * (1 - (bps : ℚ) / 10000)⌋) := by
  have hhalf := slippageDecimal_le_half slippage
  have hnn := slippageDecimal_nonneg slippage
  have hle1 : slippageDecimal slippage ≤ 1 := le_trans hhalf (by norm_num)
  constructor
  · rw [minAmountOut_eq_ediv amountOut hle1]
    have hnum : (amountOut : ℤ) * slippageMultiplier (slippageDecimal slippage) ≤
        (amountOut : ℤ) * 10000 :=
      mul_le_mul_of_nonneg_left (slippageMultiplier_le_10000 hnn)
        (Int.natCast_nonneg amountOut)
    calc (amountOut : ℤ) * slippageMultiplier (slippageDecimal slippage) / 10000
        ≤ (amountOut : ℤ) * 10000 / 10000 := Int.ediv_le_ediv (by norm_num) hnum
      _ = (amountOut : ℤ) := Int.mul_ediv_cancel _ (by norm_num)
  · intro bps hbps
    have hbps5000 : (bps : ℚ) ≤ 5000 := by
      rw [hbps] at hhalf
      have := (div_le_div_iff₀ (by norm_num) (by norm_num)).mp hhalf
      linarith
    have hmul : slippageMultiplier (slippageDecimal slippage) = 10000 - (bps : ℤ) := by
      unfold slippageMultiplier
      rw [hbps]
      have : (1 - (bps : ℚ) / 10000) * 10000 = ((10000 - (bps : ℤ) : ℤ) : ℚ) := by
        push_cast
        ring
      rw [this, Int.floor_intCast]
    rw [minAmountOut_eq_ediv amountOut hle1, hmul]
    have hq : (amountOut : ℚ) * (1 - (bps : ℚ) / 10000) =
        (((amountOut : ℤ) * (10000 - (bps : ℤ)) : ℤ) : ℚ) / ((10000 : ℕ) : ℚ) := by
      push_cast
      ring
    rw [hq, Rat.floor_intCast_div_natCast]
    norm_num

/-- Witness for C1 at a concrete input: the spec's end-to-end scenario
(`amountOut` in output base units, 50 bps slippage): `minOutput` is
`105 * 0.995 = 104.475` units, floored in base units, and bounded by the
expected output. -/
theorem minAmountOut_le_amountOut_and_bps_witness :
    minAmountOut 105000000 (slippageDecimal (some (1 / 2))) ≤ (105000000 : ℤ) ∧
    minAmountOut 105000000 (slippageDecimal (some (1 / 2))) =
      ⌊(105000000 : ℚ) * (1 - (50 : ℚ) / 10000)⌋ := by
  have h := minAmountOut_le_amountOut_and_bps (some (1 / 2)) 105000000
  refine ⟨h.1, h.2 50 ?_⟩
  norm_num [slippageDecimal]

/-! ## C9 — monotonicity: counterexample, then the amended statement -/

/-- Counterexample to C9 as stated: `s1 = 1/2` and `s2 = 0` are both
effective slippage values (produced by client slippage `50` and `0`), with
`s1 ≥ s2`, yet `minOut(s1) = 5000 < 10000 = minOut(s2)` at
`amountOut = 10000` — minOut *decreases* as the slippage tolerance grows, so
`minOut(s1) ≥ minOut(s2)` fails. -/
theorem minAmountOut_not_monotone_in_slippage :
    slippageDecimal (some 50) = 1 / 2 ∧
    slippageDecimal (some 0) = 0 ∧
    ((0 : ℚ) ≤ 1 / 2) ∧
    ¬ (minAmountOut 10000 (slippageDecimal (some 50)) ≥
        minAmountOut 10000 (slippageDecimal (some 0))) := by
  refine ⟨by norm_num [slippageDecimal], by norm_num [slippageDecimal], by norm_num, ?_⟩
  have h1 : slippageDecimal (some 50) = 1 / 2 := by norm_num [slippageDecimal]
  have h2 : slippageDecimal (some 0) = 0 := by norm_num [slippageDecimal]
  rw [h1, h2]
  have m1 : slippageMultiplier (1 / 2) = 5000 := by
    unfold slippageMultiplier
    norm_num
  have m2 : slippageMultiplier 0 = 10000 := by
    unfold slippageMultiplier
    norm_num
  simp only [minAmountOut, m1, m2]
  decide

/-! ## Risk-score monotonicity helpers -/

theorem weights_sum_filterMap (l : List (Option RiskFactor)) :
    (((l.filterMap id).map (·.weight)).sum) = (l.map optWeight).sum := by
  induction l with
  | nil => rfl
  | cons o rest ih =>
      cases o <;> simp [optWeight, ih]

theorem assessSwapRisk_score_eq (p : SwapParameters) :
    (assessSwapRisk p).score = min 100 (totalRiskScore p) := by
  simp [assessSwapRisk, totalRiskScore, weights_sum_filterMap]

theorem assessPriceImpact_weight_mono {v1 v2 : ℚ} (h : v1 ≤ v2) :
    optWeight (assessPriceImpact v1) ≤ optWeight (assessPriceImpact v2) := by
  unfold assessPriceImpact optWeight
  split_ifs <;> simp <;> linarith

theorem assessSlippage_weight_mono {v1 v2 : ℚ} (h : v1 ≤ v2) :
    optWeight (assessSlippage v1) ≤ optWeight (assessSlippage v2) := by
  unfold assessSlippage optWeight
  split_ifs <;> simp <;> linarith

theorem assessVolatility_weight_mono {v1 v2 : ℚ} (h : |v1| ≤ |v2|) :
    optWeight (assessVolatility v1) ≤ optWeight (assessVolatility v2) := by
  simp only [assessVolatility, optWeight]
  split_ifs <;> simp <;> linarith

/-! ## C9 amended — minOut is antitone in slippage; risk score is monotone -/

/-- C9 amended: `minOut` is monotonically non-*increasing* as the slippage
tolerance *grows* (`s1 ≥ s2 → minOut(s1) ≤ minOut(s2)`), the direction
opposite to the claim's; and, as claimed, the risk score returned by
`assessSwapRisk` is monotonically non-decreasing in price impact, in slippage
tolerance, and in the 24h-volatility magnitude, other inputs fixed. -/
theorem minAmountOut_antitone_and_risk_score_monotone :
    (∀ (amountOut : ℕ) (s1 s2 : ℚ), s2 ≤ s1 → s1 ≤ 1 →
      minAmountOut amountOut s1 ≤ minAmountOut amountOut s2) ∧
    (∀ (p : SwapParameters) (v1 v2 : ℚ), v1 ≤ v2 →
      (assessSwapRisk { p with priceImpact := some v1 }).score ≤
        (assessSwapRisk { p with priceImpact := some v2 }).score) ∧
    (∀ (p : SwapParameters) (v1 v2 : ℚ), v1 ≤ v2 →
      (assessSwapRisk { p with slippage := v1 }).score ≤
        (assessSwapRisk { p with slippage := v2 }).score) ∧
    (∀ (p : SwapParameters) (v1 v2 : ℚ), |v1| ≤ |v2| →
      (assessSwapRisk { p with marketVolatility := some v1 }).score ≤
        (assessSwapRisk { p with marketVolatility := some v2 }).score) := by
  refine ⟨fun amountOut s1 s2 h12 h1 => ?_, fun p v1 v2 h => ?_, fun p v1 v2 h => ?_,
    fun p v1 v2 h => ?_⟩
  · rw [minAmountOut_eq_ediv amountOut h1, minAmountOut_eq_ediv amountOut
      (le_trans h12 h1)]
    exact Int.ediv_le_ediv (by norm_num)
      (mul_le_mul_of_nonneg_left (slippageMultiplier_antitone h12)
        (Int.natCast_nonneg amountOut))
  · rw [assessSwapRisk_score_eq, assessSwapRisk_score_eq]
    refine min_le_min le_rfl ?_
    simp only [totalRiskScore, riskFactorOptions, List.map_cons, List.map_nil,
      List.sum_cons, List.sum_nil, Option.some_bind]
    have := assessPriceImpact_weight_mono h
    omega
  · rw [assessSwapRisk_score_eq, assessSwapRisk_score_eq]
    refine min_le_min le_rfl ?_
    simp only [totalRiskScore, riskFactorOptions, List.map_cons, List.map_nil,
      List.sum_cons, List.sum_nil]
    have := assessSlippage_weight_mono h
    omega
  · rw [assessSwapRisk_score_eq, assessSwapRisk_score_eq]
    refine min_le_min le_rfl ?_
    simp only [totalRiskScore, riskFactorOptions, List.map_cons, List.map_nil,
      List.sum_cons, List.sum_nil, Option.some_bind]
    have := assessVolatility_weight_mono h
    omega

/-- Witness for the amended C9 at concrete inputs. -/
theorem minAmountOut_antitone_and_risk_score_monotone_witness :
    minAmountOut 10000 (1 / 2) ≤ minAmountOut 10000 0 ∧
    (assessSwapRisk { priceImpactOnlyParams with priceImpact := some 3 }).score ≤
      (assessSwapRisk { priceImpactOnlyParams with priceImpact := some 6 }).score := by
  have h := minAmountOut_antitone_and_risk_score_monotone
  exact ⟨h.1 10000 (1 / 2) 0 (by norm_num) (by norm_num),
    h.2.1 priceImpactOnlyParams 3 6 (by norm_num)⟩

/-! ## C10 — effective slippage is clamped; minOutput is at least half -/

/-- C10: for every request, the effective slippage fraction lies in
`[0, 1/2]` — a numeric client slippage is divided by 100 and clamped, a
non-numeric or missing one falls back to the fixed default — and therefore
the returned `minOutput` is at least `⌊expectedOutput / 2⌋`, whatever the
client sent. -/
theorem slippageDecimal_clamped_and_half_bound (slippage : Option ℚ) (amountOut : ℕ) :
    0 ≤ slippageDecimal slippage ∧
    slippageDecimal slippage ≤ 1 / 2 ∧
    ((amountOut / 2 : ℕ) : ℤ) ≤ minAmountOut amountOut (slippageDecimal slippage) := by
  have hnn := slippageDecimal_nonneg slippage
  have hhalf := slippageDecimal_le_half slippage
  refine ⟨hnn, hhalf, ?_⟩
  rw [minAmountOut_eq_ediv amountOut (le_trans hhalf (by norm_num))]
  have hnum : (amountOut : ℤ) * 5000 ≤
      (amountOut : ℤ) * slippageMultiplier (slippageDecimal slippage) :=
    mul_le_mul_of_nonneg_left (slippageMultiplier_ge_5000 hhalf)
      (Int.natCast_nonneg amountOut)
  have hhalfdiv : ((amountOut / 2 : ℕ) : ℤ) = (amountOut : ℤ) * 5000 / 10000 := by
    rw [Int.natCast_div]
    have : (10000 : ℤ) = 5000 * 2 := by norm_num
    rw [this, show (amountOut : ℤ) * 5000 = 5000 * (amountOut : ℤ) by ring,
      Int.mul_ediv_mul_of_pos _ _ (by norm_num : (0 : ℤ) < 5000)]
    norm_num
  rw [hhalfdiv]
  exact Int.ediv_le_ediv (by norm_num) hnum

/-! ## C2 — best-quote selection helper lemmas -/

theorem bestQuoteLoop_eq_pickBestAux {α : Type} :
    ∀ (results : List (α × Option QuoterSuccess)) (acc : Option (α × QuoterSuccess)),
      bestQuoteLoop (acc.map toBest) results =
        (pickBestAux acc (successesOf results)).map toBest := by
  intro results
  induction results with
  | nil => intro acc; cases acc <;> rfl
  | cons cr rest ih =>
      intro acc
      match cr, acc with
      | (c, none), acc =>
          simpa [successesOf, bestQuoteLoop] using ih acc
      | (c, some r), none =>
          simpa [successesOf, bestQuoteLoop, pickBestAux, toBest] using ih (some (c, r))
      | (c, some r), some b =>
          by_cases hlt : r.amountOut > b.2.amountOut
          · simpa [successesOf, bestQuoteLoop, pickBestAux, toBest, hlt]
              using ih (some (c, r))
          · simpa [successesOf, bestQuoteLoop, pickBestAux, toBest, hlt] using ih (some b)

theorem pickBestAux_some_char {α : Type} :
    ∀ (l : List (α × QuoterSuccess)) (b : α × QuoterSuccess),
      (pickBestAux (some b) l = some b ∧ ∀ y ∈ l, y.2.amountOut ≤ b.2.amountOut) ∨
      (∃ pre x post, pickBestAux (some b) l = some x ∧ l = pre ++ x :: post ∧
        b.2.amountOut < x.2.amountOut ∧
        (∀ y ∈ pre, y.2.amountOut < x.2.amountOut) ∧
        (∀ y ∈ post, y.2.amountOut ≤ x.2.amountOut)) := by
  intro l
  induction l with
  | nil => intro b; exact Or.inl ⟨rfl, by simp⟩
  | cons y rest ih =>
      intro b
      by_cases hgt : y.2.amountOut > b.2.amountOut
      · rcases ih y with ⟨heq, hall⟩ | ⟨pre, x, post, heq, hsplit, hbx, hpre, hpost⟩
        · refine Or.inr ⟨[], y, rest, ?_, by simp, hgt, by simp, hall⟩
          simpa [pickBestAux, hgt] using heq
        · refine Or.inr ⟨y :: pre, x, post, ?_, by simp [hsplit], lt_trans hgt hbx, ?_, hpost⟩
          · simpa [pickBestAux, hgt] using heq
          · intro z hz
            rcases List.mem_cons.mp hz with hz | hz
            · subst hz; exact hbx
            · exact hpre z hz
      · push_neg at hgt
        rcases ih b with ⟨heq, hall⟩ | ⟨pre, x, post, heq, hsplit, hbx, hpre, hpost⟩
        · refine Or.inl ⟨?_, ?_⟩
          · simpa [pickBestAux, not_lt.mpr hgt] using heq
          · intro z hz
            rcases List.mem_cons.mp hz with hz | hz
            · subst hz; exact hgt
            · exact hall z hz
        · refine Or.inr ⟨y :: pre, x, post, ?_, by simp [hsplit], hbx, ?_, hpost⟩
          · simpa [pickBestAux, not_lt.mpr hgt] using heq
          · intro z hz
            rcases List.mem_cons.mp hz with hz | hz
            · subst hz; exact lt_of_le_of_lt hgt hbx
            · exact hpre z hz

theorem pickBestAux_none_char {α : Type} (l : List (α × QuoterSuccess)) (hne : l ≠ []) :
    ∃ pre x post, pickBestAux none l = some x ∧ l = pre ++ x :: post ∧
      (∀ y ∈ pre, y.2.amountOut < x.2.amountOut) ∧
      (∀ y ∈ post, y.2.amountOut ≤ x.2.amountOut) := by
  match l with
  | [] => exact absurd rfl hne
  | y :: rest =>
      rcases pickBestAux_some_char rest y with ⟨heq, hall⟩ |
        ⟨pre, x, post, heq, hsplit, hbx, hpre, hpost⟩
      · exact ⟨[], y, rest, by simpa [pickBestAux] using heq, by simp, by simp, hall⟩
      · refine ⟨y :: pre, x, post, by simpa [pickBestAux] using heq, by simp [hsplit],
          ?_, hpost⟩
        intro z hz
        rcases List.mem_cons.mp hz with hz | hz
        · subst hz; exact hbx
        · exact hpre z hz

/-! ## C2 — the aggregator returns the strict maximum, first on ties -/

/-- C2: over the fixed enumeration `srcVariants × dstVariants × feeTiers`
with per-combination quoter outcomes, if at least one combination succeeds
the handler's `bestQuote` is the discovery-order-first combination whose
`amountOut` equals the maximum of all successful outputs: every
earlier-discovered success is strictly smaller and every success is at most
the chosen output (replacement requires strict inequality). -/
theorem bestQuote_selects_first_maximum (srcVariants dstVariants : List TokenInfo)
    (fts : List ℕ) (quoter : TokenInfo × TokenInfo × ℕ → Option QuoterSuccess)
    (hne : successesOf ((comboList srcVariants dstVariants fts).map fun c =>
      (c, quoter c)) ≠ []) :
    ∃ pre c r post,
      bestQuote ((comboList srcVariants dstVariants fts).map fun c => (c, quoter c)) =
        some ⟨c, r.amountOut, r.gasEstimate⟩ ∧
      successesOf ((comboList srcVariants dstVariants fts).map fun c => (c, quoter c)) =
        pre ++ (c, r) :: post ∧
      (∀ x ∈ pre, x.2.amountOut < r.amountOut) ∧
      (∀ x ∈ post, x.2.amountOut ≤ r.amountOut) ∧
      (∀ x ∈ successesOf ((comboList srcVariants dstVariants fts).map fun c =>
        (c, quoter c)), x.2.amountOut ≤ r.amountOut) := by
  rcases pickBestAux_none_char _ hne with ⟨pre, x, post, heq, hsplit, hpre, hpost⟩
  refine ⟨pre, x.1, x.2, post, ?_, by simpa using hsplit, hpre, hpost, ?_⟩
  · have h0 := bestQuoteLoop_eq_pickBestAux
      ((comboList srcVariants dstVariants fts).map fun c => (c, quoter c)) none
    rw [heq] at h0
    simpa [bestQuote, toBest] using h0
  · intro z hz
    rw [hsplit] at hz
    rcases List.mem_append.mp hz with hz | hz
    · exact le_of_lt (hpre z hz)
    · rcases List.mem_cons.mp hz with hz | hz
      · subst hz; exact le_rfl
      · exact hpost z hz

/-- Witness for C2 at the spec's end-to-end scenario: one ETH and one USDC
variant, fee tiers `[500, 3000, 10000]` with outputs `100 / 105 / 98`. -/
theorem bestQuote_selects_first_maximum_witness :
    ∃ pre c r post,
      bestQuote ((comboList [scenarioTokenIn] [scenarioTokenOut]
          [500, 3000, 10000]).map fun c => (c, scenarioQuoter c)) =
        some ⟨c, r.amountOut, r.gasEstimate⟩ ∧
      successesOf ((comboList [scenarioTokenIn] [scenarioTokenOut]
          [500, 3000, 10000]).map fun c => (c, scenarioQuoter c)) =
        pre ++ (c, r) :: post ∧
      (∀ x ∈ pre, x.2.amountOut < r.amountOut) ∧
      (∀ x ∈ post, x.2.amountOut ≤ r.amountOut) ∧
      (∀ x ∈ successesOf ((comboList [scenarioTokenIn] [scenarioTokenOut]
          [500, 3000, 10000]).map fun c => (c, scenarioQuoter c)),
        x.2.amountOut ≤ r.amountOut) :=
  bestQuote_selects_first_maximum [scenarioTokenIn] [scenarioTokenOut]
    [500, 3000, 10000] scenarioQuoter (by decide)

/-! ## C6 — failover helper lemmas -/

theorem tryProvider_result (name : String) (oracle : ℕ → FetchOutcome) (maxRetries : ℕ) :
    ∀ (attempts : List ℕ) (le : Option String),
      (tryProvider name oracle maxRetries attempts le).1 =
        attempts.findSome? fun a => attemptSuccess (oracle a) := by
  intro attempts
  induction attempts with
  | nil => intro le; rfl
  | cons a rest ih =>
      intro le
      simp only [tryProvider, List.findSome?_cons]
      cases h : attemptSuccess (oracle a) with
      | some r => simp [h]
      | none => simp [h, ih]

theorem tryProvider_lastError (name : String) (oracle : ℕ → FetchOutcome)
    (maxRetries : ℕ) :
    ∀ (attempts : List ℕ) (le : Option String),
      (∀ a ∈ attempts, attemptSuccess (oracle a) = none) →
      (tryProvider name oracle maxRetries attempts le).2.1 =
        (match attempts.getLast? with
         | some a => attemptErrMsg name (oracle a)
         | none => le) := by
  intro attempts
  induction attempts with
  | nil => intro le _; rfl
  | cons a rest ih =>
      intro le hfail
      have ha : attemptSuccess (oracle a) = none := hfail a (List.mem_cons_self a rest)
      have hrest := ih (attemptErrMsg name (oracle a))
        (fun x hx => hfail x (List.mem_cons_of_mem a hx))
      cases rest with
      | nil => simp [tryProvider, ha]
      | cons b rest' => simpa [tryProvider, ha, List.getLast?_cons_cons] using hrest

theorem tryProvider_delays (name : String) (oracle : ℕ → FetchOutcome)
    (maxRetries : ℕ) :
    ∀ (attempts : List ℕ) (le : Option String),
      (∀ a ∈ attempts, attemptSuccess (oracle a) = none) →
      (tryProvider name oracle maxRetries attempts le).2.2 =
        (attempts.filter fun a => a < maxRetries).map fun a => 2 ^ a * 100 := by
  intro attempts
  induction attempts with
  | nil => intro le _; rfl
  | cons a rest ih =>
      intro le hfail
      have ha : attemptSuccess (oracle a) = none := hfail a (List.mem_cons_self a rest)
      have hrest := ih (attemptErrMsg name (oracle a))
        (fun x hx => hfail x (List.mem_cons_of_mem a hx))
      by_cases hlt : a < maxRetries
      · simp [tryProvider, ha, hlt, hrest, List.filter_cons]
      · simp [tryProvider, ha, hlt, hrest, List.filter_cons]

theorem range'_filter_lt (maxRetries : ℕ) :
    ((List.range' 1 maxRetries).filter fun a => a < maxRetries) =
      List.range' 1 (maxRetries - 1) := by
  cases maxRetries with
  | zero => rfl
  | succ n =>
      rw [List.range'_concat, List.filter_append]
      have h1 : (List.range' 1 n).filter (fun a => a < n + 1) = List.range' 1 n := by
        rw [List.filter_eq_self]
        intro a ha
        have := (List.mem_range'_1.mp ha).2
        simpa using by omega
      have h2 : ([1 + 1 * n].filter fun a => a < n + 1) = [] := by
        simp only [List.filter_cons, List.filter_nil]
        have : ¬ (1 + 1 * n < n + 1) := by omega
        simpa using this
      rw [h1, h2, List.append_nil]
      simp

theorem range'_getLast? (maxRetries : ℕ) :
    (List.range' 1 maxRetries).getLast? =
      if maxRetries = 0 then none else some maxRetries := by
  cases maxRetries with
  | zero => rfl
  | succ n =>
      rw [List.range'_concat, List.getLast?_concat]
      simp [Nat.add_comm]

theorem failoverLoop_all_fail (oracle : RPCProvider → ℕ → FetchOutcome)
    (maxRetries : ℕ) :
    ∀ (providers : List RPCProvider) (le : Option String),
      (∀ p ∈ providers, ∀ a ∈ List.range' 1 maxRetries,
        attemptSuccess (oracle p a) = none) →
      failoverLoop oracle maxRetries providers le =
        (.error ("All RPC providers failed. Last error: " ++
           errorTextOf (threadedLastError oracle maxRetries providers le)),
         (providers.map fun _ => (List.range' 1 (maxRetries - 1)).map fun a =>
           2 ^ a * 100).flatten) := by
  intro providers
  induction providers with
  | nil =>
      intro le _
      simp [failoverLoop, threadedLastError]
  | cons p rest ih =>
      intro le hfail
      have hp := hfail p (List.mem_cons_self p rest)
      have hres := tryProvider_result p.name (oracle p) maxRetries
        (List.range' 1 maxRetries) le
      have hnone : ((List.range' 1 maxRetries).findSome? fun a =>
          attemptSuccess (oracle p a)) = none :=
        List.findSome?_eq_none_iff.mpr hp
      have hle := tryProvider_lastError p.name (oracle p) maxRetries
        (List.range' 1 maxRetries) le hp
      have hdel := tryProvider_delays p.name (oracle p) maxRetries
        (List.range' 1 maxRetries) le hp
      have hrest := ih ((tryProvider p.name (oracle p) maxRetries
          (List.range' 1 maxRetries) le).2.1)
        (fun q hq => hfail q (List.mem_cons_of_mem p hq))
      have hthread :
          threadedLastError oracle maxRetries rest
            ((tryProvider p.name (oracle p) maxRetries
              (List.range' 1 maxRetries) le).2.1) =
          threadedLastError oracle maxRetries (p :: rest) le := by
        rw [hle, range'_getLast?]
        unfold threadedLastError
        cases hmr : maxRetries with
        | zero => simp
        | succ n =>
            simp only [if_neg (Nat.succ_ne_zero n)]
            cases rest with
            | nil => simp
            | cons q rest' =>
                cases hgl : (q :: rest').getLast? with
                | none => exact absurd (List.getLast?_eq_none_iff.mp hgl) (by simp)
                | some w => simp [List.getLast?_cons_cons, hgl]
      rcases htp : tryProvider p.name (oracle p) maxRetries
          (List.range' 1 maxRetries) le with ⟨res, le2, ds⟩
      rw [htp] at hres hle hdel hrest hthread
      simp only at hres hle hdel hrest hthread
      have hds : ds = (List.range' 1 (maxRetries - 1)).map (fun a => 2 ^ a * 100) := by
        rw [hdel, range'_filter_lt]
      simp only [failoverLoop, htp, hres.trans hnone]
      rw [hrest, hthread, hds]
      simp

theorem failoverLoop_first_success (oracle : RPCProvider → ℕ → FetchOutcome)
    (maxRetries : ℕ) (resp : ℕ × ℕ) :
    ∀ (providers : List RPCProvider) (le : Option String),
      (providers.findSome? fun p => (List.range' 1 maxRetries).findSome? fun a =>
        attemptSuccess (oracle p a)) = some resp →
      (failoverLoop oracle maxRetries providers le).1 = .ok resp := by
  intro providers
  induction providers with
  | nil => intro le h; simp at h
  | cons p rest ih =>
      intro le h
      rw [List.findSome?_cons] at h
      have hres := tryProvider_result p.name (oracle p) maxRetries
        (List.range' 1 maxRetries) le
      cases hp : (List.range' 1 maxRetries).findSome? fun a =>
          attemptSuccess (oracle p a) with
      | some r =>
          rw [hp] at h
          cases h
          rcases htp : tryProvider p.name (oracle p) maxRetries
              (List.range' 1 maxRetries) le with ⟨res, le2, ds⟩
          rw [htp] at hres
          simp only at hres
          simp [failoverLoop, htp, hres.trans hp]
      | none =>
          rw [hp] at h
          rcases htp : tryProvider p.name (oracle p) maxRetries
              (List.range' 1 maxRetries) le with ⟨res, le2, ds⟩
          rw [htp] at hres
          simp only at hres
          simp only [failoverLoop, htp, hres.trans hp]
          exact ih _ h

theorem threadedLastError_none_eq_ref (providers : List RPCProvider)
    (oracle : RPCProvider → ℕ → FetchOutcome) (maxRetries : ℕ) :
    threadedLastError oracle maxRetries providers none =
      lastErrorRef providers oracle maxRetries := by
  unfold threadedLastError lastErrorRef
  cases hl : providers.getLast? with
  | none => simp
  | some p =>
      cases maxRetries with
      | zero => simp
      | succ n => simp

/-! ## C6 — failover: priority order, retries, backoff, aggregated error -/

/-- C6: `fetchWithFailover` walks providers strictly in priority order with
attempts `1..maxRetries` per provider, a non-success HTTP response counting
as a failure.  If any attempt succeeds it returns the first success in that
order (`firstSuccessRef`, written from the spec's words); if every provider
exhausts its retries it returns a single aggregated error whose message
carries the last error seen (the last provider's final attempt), and the
awaited backoff delays are exactly `2 ^ attempt * 100` ms after each
non-final failed attempt: `maxRetries - 1` delays per provider. -/
theorem fetchWithFailover_priority_and_aggregation (providers : List RPCProvider)
    (oracle : RPCProvider → ℕ → FetchOutcome) (maxRetries : ℕ) :
    (∀ resp, firstSuccessRef providers oracle maxRetries = some resp →
      (fetchWithFailover providers oracle maxRetries).1 = .ok resp) ∧
    (firstSuccessRef providers oracle maxRetries = none →
      fetchWithFailover providers oracle maxRetries =
        (.error ("All RPC providers failed. Last error: " ++
           errorTextOf (lastErrorRef providers oracle maxRetries)),
         (providers.map fun _ => (List.range' 1 (maxRetries - 1)).map fun a =>
           2 ^ a * 100).flatten)) := by
  constructor
  · intro resp h
    exact failoverLoop_first_success oracle maxRetries resp providers none h
  · intro h
    have hfail : ∀ p ∈ providers, ∀ a ∈ List.range' 1 maxRetries,
        attemptSuccess (oracle p a) = none := by
      intro p hp a ha
      exact List.findSome?_eq_none_iff.mp
        (List.findSome?_eq_none_iff.mp h p hp) a ha
    have hall := failoverLoop_all_fail oracle maxRetries providers none hfail
    rw [fetchWithFailover, hall, threadedLastError_none_eq_ref]

/-- Witness for C6: two providers that always answer HTTP 500 with
`maxRetries = 3`: the aggregated error carries the second (last) provider's
final-attempt message, and the backoff trace is `2^1·100, 2^2·100` per
provider. -/
theorem fetchWithFailover_priority_and_aggregation_witness :
    fetchWithFailover [⟨"Alchemy"⟩, ⟨"Base Public RPC"⟩]
        (fun _ _ => .response 500 0) 3 =
      (.error "All RPC providers failed. Last error: Base Public RPC returned 500",
       [200, 400, 200, 400]) := by
  have h := (fetchWithFailover_priority_and_aggregation
    [⟨"Alchemy"⟩, ⟨"Base Public RPC"⟩] (fun _ _ => .response 500 0) 3).2 rfl
  rw [h]
  rfl

/-! ## C3 — execute after a failed simulation: counterexample, then the
guarded behaviour that does hold -/

/-- Counterexample to C3: a user sequence (quote → simulate whose build
succeeds but whose simulation reports failure → execute via the copilot
handle) reaches `executing` although no state of the trace was ever
`simulated` and the only stored simulation result reports failure — the
execute request from `quote` is neither rejected nor routed through
simulation, because `handleExecuteSwap` only guards on `txData`, which the
failed simulate run left populated. -/
theorem executing_reached_without_successful_simulation :
    ((runTrace (initialState "0x1111") staleExecuteOps).map (·.step) =
      [.input, .quote, .quote, .executing]) ∧
    (∀ s ∈ runTrace (initialState "0x1111") staleExecuteOps,
      s.step ≠ .simulated ∧ ∀ r, s.simulation = some r → r.success = false) := by
  decide

/-- C3 amended: an execute request is rejected (state unchanged) exactly when
no transaction data has been built — in particular from a fresh `quote` —
and a simulation that reports failure leaves `step` where it was (`quote`
when simulation was requested from `quote`; never `executing`, never a
terminal `error` state); but once a build has succeeded, `txData` survives a
failed simulation, and an execute request then reaches `executing` without a
prior successful `simulated` state. -/
theorem execute_guard_and_failed_simulation_behaviour :
    (∀ (s : SwapUIState) (outcome : SendOutcome), s.txData = none →
      handleExecuteSwap s outcome = s) ∧
    (∀ (s : SwapUIState) (tx : TxData) (result : SimulationResult),
      result.success = false →
      (handleSimulate s (.simReturned tx result)).step = s.step) ∧
    (∀ (s : SwapUIState) (tx : TxData), s.txData = some tx →
      (handleExecuteSwap s .sendOk).step = .executing) := by
  refine ⟨fun s outcome h => ?_, fun s tx result hr => ?_, fun s tx h => ?_⟩
  · simp [handleExecuteSwap, h]
  · by_cases hguard : s.parsedIntent = none ∨ s.address = none ∨ s.quote = none
    · simp [handleSimulate, hguard]
    · simp [handleSimulate, hguard, hr]
  · simp [handleExecuteSwap, h]

/-- Witness for the amended C3 at concrete states: execute is a no-op on the
fresh initial state (`txData = null`), a failing simulation keeps
`step = quote` on the quote-step state, and execute from the stale
quote-step state lands in `executing`. -/
theorem execute_guard_and_failed_simulation_behaviour_witness :
    handleExecuteSwap (initialState "0x1111") .sendOk = initialState "0x1111" ∧
    (handleSimulate { staleQuoteState with txData := none }
        (.simReturned staleTxData failedSimulation)).step = .quote ∧
    (handleExecuteSwap staleQuoteState .sendOk).step = .executing := by
  have h := execute_guard_and_failed_simulation_behaviour
  exact ⟨h.1 (initialState "0x1111") .sendOk rfl,
    h.2.1 { staleQuoteState with txData := none } staleTxData failedSimulation rfl,
    h.2.2 staleQuoteState staleTxData rfl⟩

end SwapWright
